import Mathlib

/-!
Shallow embedding of the goJS-MicroSone user microservice
(src/src/server.js, which holds two variants of the server concatenated:
the first variant at lines 1-130 and the second, dual-backend variant at
lines 131-364), together with theorems settling the frozen claims.

The embedding models:
* the DynamoDB (key-value) table as an association list keyed by userId
  (PutItem upserts, GetItem looks up, UpdateItem with a SET expression
  upserts, DeleteItem removes, Scan lists);
* the PostgreSQL users table as a list of rows with a primary-key
  constraint on the userid column (INSERT fails on a duplicate key,
  UPDATE and DELETE touch matching rows, SELECT filters or lists);
* each Express handler as a pure function from the request, the current
  store state, an injected storage-failure outcome (the `fail` argument:
  `some msg` means the storage call throws with message `msg`) and, for
  the single-get, the outcome of the axios order lookup, to a response,
  the new store state and a trace of the I/O events the handler issued.
-/

namespace MicroSone

/-- The mutable attributes of a user record (`name`, `email`). -/
structure UserRec where
  name : String
  email : String
deriving DecidableEq

/-- DynamoDB `Users` table state: items keyed by the `userId` partition key. -/
abbrev KVStore := List (String × UserRec)

/-- `GetItemCommand` on the `Users` table (server.js lines 247-252). -/
def kvGet : KVStore → String → Option UserRec
  | [], _ => none
  | (k, u) :: rest, id => if k = id then some u else kvGet rest id

/-- Removal of every item with the given key; DynamoDB keys are unique so at
most one item is removed. Used by `kvPut` (upsert) and `kvDelete`. -/
def kvRemove : KVStore → String → KVStore
  | [], _ => []
  | (k, u) :: rest, id =>
      if k = id then kvRemove rest id else (k, u) :: kvRemove rest id

/-- `PutItemCommand` (server.js lines 217-226): unconditional upsert of the
item under its `userId` key. -/
def kvPut (st : KVStore) (id : String) (u : UserRec) : KVStore :=
  (id, u) :: kvRemove st id

/-- `UpdateItemCommand` with `SET #n = :n, email = :e` (server.js lines
290-298): sets both attributes, creating the item when the key is absent. -/
def kvUpdate (st : KVStore) (id name email : String) : KVStore :=
  kvPut st id ⟨name, email⟩

/-- `DeleteItemCommand` (server.js lines 313-318): idempotent removal. -/
def kvDelete (st : KVStore) (id : String) : KVStore :=
  kvRemove st id

/-- A row of the PostgreSQL `users` table. The schema (server.js lines
166-172) declares the columns `userid TEXT PRIMARY KEY`, `name`, `email`;
unquoted identifiers in the SQL statements fold to lowercase, so the key
column is named `userid`. -/
structure PGRow where
  userid : String
  name : String
  email : String
deriving DecidableEq

/-- PostgreSQL `users` table state. -/
abbrev PGStore := List PGRow

/-- Whether some row already carries the given primary key. -/
def pgHasId : PGStore → String → Bool
  | [], _ => false
  | r :: rest, id => r.userid == id || pgHasId rest id

/-- `INSERT INTO users (userId, name, email) VALUES ($1, $2, $3)`
(server.js lines 212-215): appends a row, failing with a primary-key
uniqueness violation when the key is already present. -/
def pgInsert (st : PGStore) (id name email : String) : Except String PGStore :=
  if pgHasId st id then
    Except.error "duplicate key value violates unique constraint"
  else
    Except.ok (st ++ [⟨id, name, email⟩])

/-- `SELECT * FROM users WHERE userId=$1` (server.js lines 240-243):
the rows whose `userid` column equals the parameter. -/
def pgSelectById : PGStore → String → List PGRow
  | [], _ => []
  | r :: rest, id =>
      if r.userid = id then r :: pgSelectById rest id else pgSelectById rest id

/-- `UPDATE users SET name=$1, email=$2 WHERE userId=$3` (server.js lines
285-287): rewrites matching rows, a silent no-op when none match. -/
def pgUpdate (st : PGStore) (id name email : String) : PGStore :=
  st.map (fun r => if r.userid = id then ⟨r.userid, name, email⟩ else r)

/-- `DELETE FROM users WHERE userId=$1` (server.js line 311): idempotent. -/
def pgDelete : PGStore → String → PGStore
  | [], _ => []
  | r :: rest, id =>
      if r.userid = id then pgDelete rest id else r :: pgDelete rest id

/-- `SELECT * FROM users` (server.js line 331). -/
def pgSelectAll (st : PGStore) : PGStore := st

/-- The combined backend state; one backend is active per process
(`usePostgres` flag), but both live here so a single handler function can
model the flag check the source performs inside every handler. -/
structure Stores where
  kv : KVStore
  pg : PGStore
deriving DecidableEq

/-- A JSON object with string-valued fields, as an ordered field list.
Enough to model the user objects the service serializes, field casing
included. -/
abbrev JsonObj := List (String × String)

/-- The field names of a JSON object, in order. -/
def keysOf (o : JsonObj) : List String := o.map Prod.fst

/-- The JSON body of a response: an error object, a message object, the
single-get `{ user, orders }` object (orders are opaque pass-through
values), or the list endpoint's array of user objects. -/
inductive Body where
  | errMsg (e : String)
  | message (m : String)
  | userOrders (user : JsonObj) (orders : List String)
  | userList (users : List JsonObj)
deriving DecidableEq

/-- An HTTP response: status code and JSON body. -/
structure Resp where
  status : Nat
  body : Body
deriving DecidableEq

/-- The uniform storage-failure response every handler's catch produces
(server.js lines 231, 273, 303, 323, 344). -/
def internalErr : Resp := ⟨500, Body.errMsg "Internal server error"⟩

/-- The I/O events a handler can issue: the five storage operations and the
outbound order-service request. -/
inductive Ev where
  | storeCreate (id name email : String)
  | storeGet (id : String)
  | storeUpdate (id name email : String)
  | storeDelete (id : String)
  | storeScan
  | orderFetch (userId : String)
deriving DecidableEq

/-- The outcome of one handler run: response, post-state, event trace. -/
structure HResult where
  resp : Resp
  stores : Stores
  trace : List Ev
deriving DecidableEq

/-- JavaScript falsiness of a request-body string field: absent
(`undefined`) or the empty string. This is the `!userId` test of
server.js lines 207, 280. -/
def falsy : Option String → Bool
  | none => true
  | some s => s == ""

/-- The user object the DynamoDB branch of the single-get builds
(server.js lines 254-258): explicit `{ userId, name, email }` fields. -/
def userObjKV (id : String) (u : UserRec) : JsonObj :=
  [("userId", id), ("name", u.name), ("email", u.email)]

/-- The user object the PostgreSQL branch passes through (server.js line
245: `user = result.rows[0]`): node-postgres keys each row by the column
names the server reports, and the schema column is the lowercase
`userid`, so no casing normalization happens on this path. -/
def userObjPG (r : PGRow) : JsonObj :=
  [("userid", r.userid), ("name", r.name), ("email", r.email)]

/-- The storage lookup inside `GET /users/:id` (server.js lines 238-259),
already shaped as the JSON user object each branch produces. -/
def lookupUser (usePostgres : Bool) (st : Stores) (id : String) : Option JsonObj :=
  if usePostgres then
    ((pgSelectById st.pg id).head?).map userObjPG
  else
    (kvGet st.kv id).map (userObjKV id)

/-- The inner try/catch around the axios order call (server.js lines
262-268): any failure degrades to the empty list. -/
def ordersOrEmpty : Except String (List String) → List String
  | Except.ok o => o
  | Except.error _ => []

/-- `POST /users` (server.js lines 205-233): presence check first, then the
backend-selected create, with the catch mapping any storage error to the
generic 500. -/
def postUsers (usePostgres : Bool) (st : Stores) (fail : Option String)
    (userId name email : Option String) : HResult :=
  if falsy userId || falsy name || falsy email then
    ⟨⟨400, Body.errMsg "Missing fields"⟩, st, []⟩
  else
    let uid := userId.getD ""
    let n := name.getD ""
    let e := email.getD ""
    match fail with
    | some _ => ⟨internalErr, st, [Ev.storeCreate uid n e]⟩
    | none =>
      if usePostgres then
        match pgInsert st.pg uid n e with
        | Except.error _ => ⟨internalErr, st, [Ev.storeCreate uid n e]⟩
        | Except.ok pg' =>
            ⟨⟨201, Body.message "User created!"⟩, { st with pg := pg' },
              [Ev.storeCreate uid n e]⟩
      else
        ⟨⟨201, Body.message "User created!"⟩,
          { st with kv := kvPut st.kv uid ⟨n, e⟩ }, [Ev.storeCreate uid n e]⟩

/-- `GET /users/:id` (server.js lines 236-275): storage lookup first; on
not-found, 404 without any order request; on found, the order lookup runs
(failure swallowed) and the response is 200 with the user object and the
orders. A storage throw maps to the generic 500. -/
def getUserById (usePostgres : Bool) (st : Stores) (fail : Option String)
    (ordersRes : Except String (List String)) (id : String) : HResult :=
  match fail with
  | some _ => ⟨internalErr, st, [Ev.storeGet id]⟩
  | none =>
    match lookupUser usePostgres st id with
    | none => ⟨⟨404, Body.errMsg "User not found"⟩, st, [Ev.storeGet id]⟩
    | some user =>
        ⟨⟨200, Body.userOrders user (ordersOrEmpty ordersRes)⟩, st,
          [Ev.storeGet id, Ev.orderFetch id]⟩

/-- `PUT /users/:id`, second variant (server.js lines 278-305): presence
check on `name` and `email`, then the unconditional backend update. -/
def putUser (usePostgres : Bool) (st : Stores) (fail : Option String)
    (id : String) (name email : Option String) : HResult :=
  if falsy name || falsy email then
    ⟨⟨400, Body.errMsg "Missing fields"⟩, st, []⟩
  else
    let n := name.getD ""
    let e := email.getD ""
    match fail with
    | some _ => ⟨internalErr, st, [Ev.storeUpdate id n e]⟩
    | none =>
      if usePostgres then
        ⟨⟨200, Body.message "User updated!"⟩,
          { st with pg := pgUpdate st.pg id n e }, [Ev.storeUpdate id n e]⟩
      else
        ⟨⟨200, Body.message "User updated!"⟩,
          { st with kv := kvUpdate st.kv id n e }, [Ev.storeUpdate id n e]⟩

/-- `DELETE /users/:id` (server.js lines 308-325): unconditional delete. -/
def deleteUser (usePostgres : Bool) (st : Stores) (fail : Option String)
    (id : String) : HResult :=
  match fail with
  | some _ => ⟨internalErr, st, [Ev.storeDelete id]⟩
  | none =>
    if usePostgres then
      ⟨⟨200, Body.message "User deleted!"⟩,
        { st with pg := pgDelete st.pg id }, [Ev.storeDelete id]⟩
    else
      ⟨⟨200, Body.message "User deleted!"⟩,
        { st with kv := kvDelete st.kv id }, [Ev.storeDelete id]⟩

/-- `GET /users` (server.js lines 328-346): the PostgreSQL branch passes
`result.rows` through as-is; the DynamoDB branch maps scanned items to
explicit `{ userId, name, email }` objects. -/
def listUsers (usePostgres : Bool) (st : Stores) (fail : Option String) : HResult :=
  match fail with
  | some _ => ⟨internalErr, st, [Ev.storeScan]⟩
  | none =>
    if usePostgres then
      ⟨⟨200, Body.userList ((pgSelectAll st.pg).map userObjPG)⟩, st, [Ev.storeScan]⟩
    else
      ⟨⟨200, Body.userList (st.kv.map (fun p => userObjKV p.1 p.2))⟩, st,
        [Ev.storeScan]⟩

/-- The outcome of the first variant's PUT handler (response, DynamoDB
table state, trace); the first variant is DynamoDB-only. -/
structure V1Result where
  resp : Resp
  kv : KVStore
  trace : List Ev
deriving DecidableEq

/-- `PUT /users/:id`, first variant (server.js lines 64-79): no presence
check at all. When both body fields are present strings (empty included,
which modern DynamoDB accepts for non-key attributes) the update command
is sent and the handler answers 200; an absent field makes the SDK reject
the command client-side, which the catch turns into the generic 500. -/
def v1PutUser (st : KVStore) (fail : Option String) (id : String)
    (name email : Option String) : V1Result :=
  match name, email with
  | some n, some e =>
    match fail with
    | some _ => ⟨internalErr, st, [Ev.storeUpdate id n e]⟩
    | none => ⟨⟨200, Body.message "User updated!"⟩, kvUpdate st id n e,
        [Ev.storeUpdate id n e]⟩
  | _, _ => ⟨internalErr, st, []⟩

/-- Shape check used by the C1 theorems: every user object carried by the
body has exactly the expected field names, in order. -/
def userKeysOK (expected : List String) : Body → Bool
  | Body.userOrders u _ => keysOf u == expected
  | Body.userList us => us.all (fun u => keysOf u == expected)
  | _ => true

end MicroSone

namespace MicroSone

theorem kvGet_kvRemove (st : KVStore) (id : String) :
    kvGet (kvRemove st id) id = none := by
  induction st with
  | nil => rfl
  | cons p rest ih =>
    obtain ⟨k, u⟩ := p
    by_cases h : k = id
    · simp [kvRemove, h, ih]
    · simp [kvRemove, kvGet, h, ih]

theorem kvGet_kvPut_self (st : KVStore) (id : String) (u : UserRec) :
    kvGet (kvPut st id u) id = some u := by
  simp [kvPut, kvGet]

theorem pgSelectById_pgDelete (st : PGStore) (id : String) :
    pgSelectById (pgDelete st id) id = [] := by
  induction st with
  | nil => rfl
  | cons r rest ih =>
    by_cases h : r.userid = id
    · simp [pgDelete, h, ih]
    · simp [pgDelete, pgSelectById, h, ih]

theorem pgSelectById_append (a b : PGStore) (id : String) :
    pgSelectById (a ++ b) id = pgSelectById a id ++ pgSelectById b id := by
  induction a with
  | nil => rfl
  | cons r rest ih =>
    by_cases h : r.userid = id
    · simp [pgSelectById, h, ih]
    · simp [pgSelectById, h, ih]

theorem pgSelectById_eq_nil (st : PGStore) (id : String)
    (h : pgHasId st id = false) : pgSelectById st id = [] := by
  induction st with
  | nil => rfl
  | cons r rest ih =>
    simp only [pgHasId, Bool.or_eq_false_iff, beq_eq_false_iff_ne] at h
    simp [pgSelectById, h.1, ih h.2]

/-- C1: counterexample — with the relational backend active, `GET /users/:id`
for a stored row answers 200 with a user object whose key field is the
schema's lowercase `userid`, so the response shape is not the claimed
`{userId, name, email}`: no casing normalization happens on this path. -/
theorem C1_counterexample :
    (getUserById true ⟨[], [⟨"u1", "Ann", "ann@x.com"⟩]⟩ none (Except.ok []) "u1").resp
      = ⟨200, Body.userOrders [("userid", "u1"), ("name", "Ann"), ("email", "ann@x.com")] []⟩
    ∧ keysOf [("userid", "u1"), ("name", "Ann"), ("email", "ann@x.com")]
      ≠ ["userId", "name", "email"] := by
  exact ⟨by rfl, by decide⟩

/-- C1 (amended): the key-value backend's single-get and list responses carry
user objects shaped exactly `{userId, name, email}`, but the relational
backend performs no casing normalization: its responses carry the rows
as-is, shaped `{userid, name, email}` with the lowercase key field. -/
theorem C1_response_shapes (st : Stores) (id : String)
    (ores : Except String (List String)) :
    userKeysOK ["userId", "name", "email"] (getUserById false st none ores id).resp.body = true
    ∧ userKeysOK ["userId", "name", "email"] (listUsers false st none).resp.body = true
    ∧ userKeysOK ["userid", "name", "email"] (getUserById true st none ores id).resp.body = true
    ∧ userKeysOK ["userid", "name", "email"] (listUsers true st none).resp.body = true := by
  refine ⟨?_, ?_, ?_, ?_⟩
  · cases h : kvGet st.kv id with
    | none => simp [getUserById, lookupUser, h, userKeysOK]
    | some u => simp [getUserById, lookupUser, h, userKeysOK, userObjKV, keysOf]
  · simp [listUsers, userKeysOK, userObjKV, keysOf, List.all_eq_true]
    intro u a b hmem h
    subst h
    rfl
  · cases h : (pgSelectById st.pg id).head? with
    | none => simp [getUserById, lookupUser, h, userKeysOK]
    | some r => simp [getUserById, lookupUser, h, userKeysOK, userObjPG, keysOf]
  · simp [listUsers, pgSelectAll, userKeysOK, userObjPG, keysOf, List.all_eq_true]

/-- C2: counterexample — the first variant's PUT handler, given empty `name`
and `email`, answers 200 and issues the storage update, not the claimed 400
with no update: that variant performs no presence check. -/
theorem C2_counterexample :
    (v1PutUser [] none "u1" (some "") (some "")).resp.status = 200
    ∧ (v1PutUser [] none "u1" (some "") (some "")).trace
      = [Ev.storeUpdate "u1" "" ""] := by
  exact ⟨rfl, rfl⟩

/-- C2 (amended): in the second, dual-backend variant, a PUT whose `name` or
`email` is absent or empty answers 400 and performs no storage update in
either backend; the first variant lacks this validation entirely. -/
theorem C2_put_validation (b : Bool) (st : Stores) (fail : Option String)
    (id : String) (name email : Option String)
    (h : (falsy name || falsy email) = true) :
    (putUser b st fail id name email).resp = ⟨400, Body.errMsg "Missing fields"⟩
    ∧ (putUser b st fail id name email).stores = st
    ∧ (putUser b st fail id name email).trace = [] := by
  simp [putUser, h]

theorem C2_witness :
    (falsy (some "") || falsy (some "a@x.com")) = true
    ∧ (putUser false ⟨[], []⟩ none "u1" (some "") (some "a@x.com")).resp
      = ⟨400, Body.errMsg "Missing fields"⟩ :=
  ⟨by decide,
    (C2_put_validation false ⟨[], []⟩ none "u1" (some "") (some "a@x.com") (by decide)).1⟩

end MicroSone

namespace MicroSone

/-- C3: creating a user and then fetching it (no intervening writes, no
storage failure) answers 200 and round-trips the three field values in both
backends: the key-value backend returns them under `userId`/`name`/`email`,
the relational backend under the schema's `userid`/`name`/`email` columns
(the key-field casing itself is the subject of C1). -/
theorem C3_create_then_get (st : Stores) (uid n e : String)
    (ores : Except String (List String))
    (hu : uid ≠ "") (hn : n ≠ "") (he : e ≠ "")
    (hpg : pgHasId st.pg uid = false) :
    ((postUsers false st none (some uid) (some n) (some e)).resp.status = 201
      ∧ (getUserById false (postUsers false st none (some uid) (some n) (some e)).stores
          none ores uid).resp
        = ⟨200, Body.userOrders [("userId", uid), ("name", n), ("email", e)]
            (ordersOrEmpty ores)⟩)
    ∧ ((postUsers true st none (some uid) (some n) (some e)).resp.status = 201
      ∧ (getUserById true (postUsers true st none (some uid) (some n) (some e)).stores
          none ores uid).resp
        = ⟨200, Body.userOrders [("userid", uid), ("name", n), ("email", e)]
            (ordersOrEmpty ores)⟩) := by
  have hval : (falsy (some uid) || falsy (some n) || falsy (some e)) = false := by
    simp [falsy, hu, hn, he]
  refine ⟨⟨?_, ?_⟩, ?_, ?_⟩
  · simp [postUsers, hval]
  · simp [postUsers, hval, getUserById, lookupUser, kvGet_kvPut_self, userObjKV]
  · simp [postUsers, hval, pgInsert, hpg]
  · simp [postUsers, hval, pgInsert, hpg, getUserById, lookupUser,
      pgSelectById_append, pgSelectById_eq_nil st.pg uid hpg, pgSelectById, userObjPG]

theorem C3_witness :
    "u1" ≠ "" ∧ "Ann" ≠ "" ∧ "a@x.com" ≠ "" ∧ pgHasId [] "u1" = false
    ∧ (getUserById false
        (postUsers false ⟨[], []⟩ none (some "u1") (some "Ann") (some "a@x.com")).stores
        none (Except.ok []) "u1").resp
      = ⟨200, Body.userOrders
          [("userId", "u1"), ("name", "Ann"), ("email", "a@x.com")] []⟩ :=
  ⟨by decide, by decide, by decide, by decide,
    (C3_create_then_get ⟨[], []⟩ "u1" "Ann" "a@x.com" (Except.ok [])
      (by decide) (by decide) (by decide) (by decide)).1.2⟩

/-- C4: a POST with any of the three fields absent or empty answers 400 with
body `{error: "Missing fields"}`, whichever backend is active. -/
theorem C4_post_missing_fields (b : Bool) (st : Stores) (fail : Option String)
    (userId name email : Option String)
    (h : (falsy userId || falsy name || falsy email) = true) :
    (postUsers b st fail userId name email).resp
      = ⟨400, Body.errMsg "Missing fields"⟩ := by
  simp [postUsers, h]

theorem C4_witness :
    (falsy (some "u1") || falsy none || falsy (some "a@x.com")) = true
    ∧ (postUsers true ⟨[], []⟩ none (some "u1") none (some "a@x.com")).resp
      = ⟨400, Body.errMsg "Missing fields"⟩ :=
  ⟨by decide,
    C4_post_missing_fields true ⟨[], []⟩ none (some "u1") none (some "a@x.com")
      (by decide)⟩

/-- C5: when the storage lookup finds the user and the order-service call
fails (any failure mode: the axios rejection is modelled by the error case),
the single-get still answers 200 with the user object and an empty orders
array; the failure is not propagated. -/
theorem C5_orders_failure_swallowed (b : Bool) (st : Stores) (id emsg : String)
    (user : JsonObj) (h : lookupUser b st id = some user) :
    (getUserById b st none (Except.error emsg) id).resp
      = ⟨200, Body.userOrders user []⟩ := by
  simp [getUserById, h, ordersOrEmpty]

theorem C5_witness :
    lookupUser false ⟨[("u1", ⟨"Ann", "a@x.com"⟩)], []⟩ "u1"
      = some [("userId", "u1"), ("name", "Ann"), ("email", "a@x.com")]
    ∧ (getUserById false ⟨[("u1", ⟨"Ann", "a@x.com"⟩)], []⟩ none
        (Except.error "connect ECONNREFUSED") "u1").resp
      = ⟨200, Body.userOrders
          [("userId", "u1"), ("name", "Ann"), ("email", "a@x.com")] []⟩ :=
  ⟨by decide,
    C5_orders_failure_swallowed false ⟨[("u1", ⟨"Ann", "a@x.com"⟩)], []⟩ "u1"
      "connect ECONNREFUSED"
      [("userId", "u1"), ("name", "Ann"), ("email", "a@x.com")] (by decide)⟩

/-- C6: creating an already-existing userId upserts in the key-value backend
(201, record overwritten in place) and violates the primary-key constraint
in the relational backend (caught as the generic 500, table unchanged); the
two backends deliberately diverge. -/
theorem C6_duplicate_create (st : Stores) (uid n e : String)
    (hu : uid ≠ "") (hn : n ≠ "") (he : e ≠ "")
    (hkv : (kvGet st.kv uid).isSome = true)
    (hpg : pgHasId st.pg uid = true) :
    ((postUsers false st none (some uid) (some n) (some e)).resp
        = ⟨201, Body.message "User created!"⟩
      ∧ kvGet (postUsers false st none (some uid) (some n) (some e)).stores.kv uid
        = some ⟨n, e⟩)
    ∧ ((postUsers true st none (some uid) (some n) (some e)).resp = internalErr
      ∧ (postUsers true st none (some uid) (some n) (some e)).stores = st) := by
  have hval : (falsy (some uid) || falsy (some n) || falsy (some e)) = false := by
    simp [falsy, hu, hn, he]
  refine ⟨⟨?_, ?_⟩, ?_, ?_⟩
  · simp [postUsers, hval]
  · simp [postUsers, hval, kvGet_kvPut_self]
  · simp [postUsers, hval, pgInsert, hpg]
  · simp [postUsers, hval, pgInsert, hpg]

theorem C6_witness :
    (kvGet [("u1", ⟨"Ann", "a@x.com"⟩)] "u1").isSome = true
    ∧ pgHasId [⟨"u1", "Ann", "a@x.com"⟩] "u1" = true
    ∧ (postUsers true ⟨[("u1", ⟨"Ann", "a@x.com"⟩)], [⟨"u1", "Ann", "a@x.com"⟩]⟩
        none (some "u1") (some "Bea") (some "b@x.com")).resp = internalErr :=
  ⟨by decide, by decide,
    (C6_duplicate_create ⟨[("u1", ⟨"Ann", "a@x.com"⟩)], [⟨"u1", "Ann", "a@x.com"⟩]⟩
      "u1" "Bea" "b@x.com" (by decide) (by decide) (by decide) (by decide)
      (by decide)).2.1⟩

/-- C7: when the storage call throws — whatever the thrown message — each of
the five handlers answers exactly 500 `{error: "Internal server error"}`;
the response body is a fixed constant, so the thrown content never reaches
the client. -/
theorem C7_storage_error_masked (b : Bool) (st : Stores) (msg uid n e id : String)
    (ores : Except String (List String))
    (hu : uid ≠ "") (hn : n ≠ "") (he : e ≠ "") :
    (postUsers b st (some msg) (some uid) (some n) (some e)).resp = internalErr
    ∧ (getUserById b st (some msg) ores id).resp = internalErr
    ∧ (putUser b st (some msg) id (some n) (some e)).resp = internalErr
    ∧ (deleteUser b st (some msg) id).resp = internalErr
    ∧ (listUsers b st (some msg)).resp = internalErr := by
  have hval3 : (falsy (some uid) || falsy (some n) || falsy (some e)) = false := by
    simp [falsy, hu, hn, he]
  have hval2 : (falsy (some n) || falsy (some e)) = false := by
    simp [falsy, hn, he]
  exact ⟨by simp [postUsers, hval3], by simp [getUserById],
    by simp [putUser, hval2], by simp [deleteUser], by simp [listUsers]⟩

theorem C7_witness :
    "u1" ≠ "" ∧ "Ann" ≠ "" ∧ "a@x.com" ≠ ""
    ∧ (listUsers false ⟨[], []⟩ (some "ECONNRESET")).resp = internalErr :=
  ⟨by decide, by decide, by decide,
    (C7_storage_error_masked false ⟨[], []⟩ "ECONNRESET" "u1" "Ann" "a@x.com" "u2"
      (Except.ok []) (by decide) (by decide) (by decide)).2.2.2.2⟩

/-- C8: DELETE answers 200 `{message: "User deleted!"}` for any id — present
in the store or not — in either backend (the store call succeeding), and a
subsequent single-get for that id answers 404. -/
theorem C8_delete_then_get (b : Bool) (st : Stores) (id : String)
    (ores : Except String (List String)) :
    (deleteUser b st none id).resp = ⟨200, Body.message "User deleted!"⟩
    ∧ (getUserById b (deleteUser b st none id).stores none ores id).resp
      = ⟨404, Body.errMsg "User not found"⟩ := by
  cases b
  · exact ⟨rfl, by simp [deleteUser, getUserById, lookupUser, kvDelete, kvGet_kvRemove]⟩
  · exact ⟨rfl, by simp [deleteUser, getUserById, lookupUser, pgSelectById_pgDelete]⟩

/-- C9: inside the single-get, the handler's event trace is `[storeGet id]`
when the storage lookup misses — the 404 path issues no order request — and
exactly `[storeGet id, orderFetch id]` when it hits: the single order
request strictly follows the storage lookup. -/
theorem C9_sequencing (b : Bool) (st : Stores) (id : String)
    (ores : Except String (List String)) :
    (lookupUser b st id = none →
      (getUserById b st none ores id).trace = [Ev.storeGet id])
    ∧ (∀ user, lookupUser b st id = some user →
      (getUserById b st none ores id).trace = [Ev.storeGet id, Ev.orderFetch id]) := by
  constructor
  · intro h
    simp [getUserById, h]
  · intro user h
    simp [getUserById, h]

theorem C9_witness :
    (getUserById false ⟨[], []⟩ none (Except.ok []) "u1").trace = [Ev.storeGet "u1"]
    ∧ (getUserById false ⟨[("u1", ⟨"Ann", "a@x.com"⟩)], []⟩ none
        (Except.ok []) "u1").trace = [Ev.storeGet "u1", Ev.orderFetch "u1"] :=
  ⟨(C9_sequencing false ⟨[], []⟩ "u1" (Except.ok [])).1 (by decide),
    (C9_sequencing false ⟨[("u1", ⟨"Ann", "a@x.com"⟩)], []⟩ "u1" (Except.ok [])).2
      [("userId", "u1"), ("name", "Ann"), ("email", "a@x.com")] (by decide)⟩

/-- C10: a POST or PUT (second variant) rejected with 400 for missing fields
issues no storage operation at all — the event trace is empty — and leaves
both stores exactly as they were. -/
theorem C10_rejected_requests_pure (b : Bool) (st : Stores) (fail : Option String)
    (userId name email : Option String) (id : String) :
    ((falsy userId || falsy name || falsy email) = true →
      (postUsers b st fail userId name email).stores = st
      ∧ (postUsers b st fail userId name email).trace = []
      ∧ (postUsers b st fail userId name email).resp.status = 400)
    ∧ ((falsy name || falsy email) = true →
      (putUser b st fail id name email).stores = st
      ∧ (putUser b st fail id name email).trace = []
      ∧ (putUser b st fail id name email).resp.status = 400) := by
  constructor
  · intro h
    simp [postUsers, h]
  · intro h
    simp [putUser, h]

theorem C10_witness :
    ((postUsers true ⟨[], [⟨"u2", "Bea", "b@x.com"⟩]⟩ none none (some "Ann")
        (some "a@x.com")).stores = ⟨[], [⟨"u2", "Bea", "b@x.com"⟩]⟩)
    ∧ ((putUser true ⟨[], [⟨"u2", "Bea", "b@x.com"⟩]⟩ none "u2" (some "") 
        (some "a@x.com")).stores = ⟨[], [⟨"u2", "Bea", "b@x.com"⟩]⟩) :=
  ⟨((C10_rejected_requests_pure true ⟨[], [⟨"u2", "Bea", "b@x.com"⟩]⟩ none none
      (some "Ann") (some "a@x.com") "u2").1 (by decide)).1,
    ((C10_rejected_requests_pure true ⟨[], [⟨"u2", "Bea", "b@x.com"⟩]⟩ none (some "")
      (some "") (some "a@x.com") "u2").2 (by decide)).1⟩

end MicroSone
